import Mathlib

set_option maxHeartbeats 2000000

/-!
Verification development for the persistent Key-Value Store (KVS) subsystem.

The repository ships only the integration-test harness; the KVS engine it
exercises (value model, defaults provider, snapshot store, engine, instance
registry, driver CLI) is specified in `spec.md` but its source is not part of
the repository. All engine definitions below are therefore modelled from the
specification; each doc comment names the missing component it models.

Modelling conventions:
- machine integers are `Int`/`Nat` with explicit range side conditions
  (`Value.wf`), as the spec prescribes for decode-time range checks;
- finite IEEE-754 doubles are modelled as rationals (`Rat`): the engine never
  computes with them, it only stores, serializes and compares them;
- the filesystem seen by one instance is modelled as the list of generation
  payloads `gens` (index = generation number); a payload and its hash sidecar
  are written together by flush, so a generation exists iff its entry is
  `some`;
- JSON documents are modelled by the `Json` tree; a defaults file whose bytes
  do not parse as JSON at all is the `FileText.badText` case.
-/

/- Modelled from the spec: the tagged value model of component C1 ("Value
model"), a sum over the ten tags i32, u32, i64, u64, f64, bool, str, null,
arr, obj, with arrays and objects nesting arbitrarily. The mutual companions
`ValueList` and `ValueFields` are the payloads of `arr` and `obj`. -/
mutual

inductive Value where
  | i32 (n : Int)
  | u32 (n : Nat)
  | i64 (n : Int)
  | u64 (n : Nat)
  | f64 (x : Rat)
  | bool (b : Bool)
  | str (s : String)
  | null
  | arr (xs : ValueList)
  | obj (fs : ValueFields)

inductive ValueList where
  | nil
  | cons (hd : Value) (tl : ValueList)

inductive ValueFields where
  | nil
  | cons (k : String) (hd : Value) (tl : ValueFields)

end

/- Modelled from the spec: a JSON document tree, the wire form produced by
`encode` and consumed by `decode` (component C1). -/
mutual

inductive Json where
  | num (q : Rat)
  | str (s : String)
  | bool (b : Bool)
  | null
  | arr (xs : JsonList)
  | obj (fs : JsonFields)

inductive JsonList where
  | nil
  | cons (hd : Json) (tl : JsonList)

inductive JsonFields where
  | nil
  | cons (k : String) (hd : Json) (tl : JsonFields)

end

/-- Modelled from the spec: the serialization tag of a value, one of the ten
tag strings of §3. -/
def tagOf : Value → String
  | .i32 _ => "i32"
  | .u32 _ => "u32"
  | .i64 _ => "i64"
  | .u64 _ => "u64"
  | .f64 _ => "f64"
  | .bool _ => "bool"
  | .str _ => "str"
  | .null => "null"
  | .arr _ => "arr"
  | .obj _ => "obj"

/- Modelled from the spec: well-formedness of a value, i.e. every numeric
payload lies in the range of its machine type (`i32 ∈ [-2^31, 2^31)`,
`u32 ∈ [0, 2^32)` and analogously for the 64-bit tags, §4.1). -/
mutual

def Value.wf : Value → Bool
  | .i32 n => decide (-(2 ^ 31) ≤ n) && decide (n < 2 ^ 31)
  | .u32 n => decide (n < 2 ^ 32)
  | .i64 n => decide (-(2 ^ 63) ≤ n) && decide (n < 2 ^ 63)
  | .u64 n => decide (n < 2 ^ 64)
  | .f64 _ => true
  | .bool _ => true
  | .str _ => true
  | .null => true
  | .arr xs => xs.wf
  | .obj fs => fs.wf

def ValueList.wf : ValueList → Bool
  | .nil => true
  | .cons v tl => v.wf && tl.wf

def ValueFields.wf : ValueFields → Bool
  | .nil => true
  | .cons _ v tl => v.wf && tl.wf

end

/- Modelled from the spec: `encode` of component C1. Every value serializes
as the tagged wrapper object with exactly the members `t` (the tag string)
and `v` (the payload); `arr` and `obj` payloads contain the encodings of
their elements, which are themselves tagged wrappers. -/
mutual

def encode : Value → Json
  | .i32 n => .obj (.cons "t" (.str "i32") (.cons "v" (.num (n : Rat)) .nil))
  | .u32 n => .obj (.cons "t" (.str "u32") (.cons "v" (.num ((n : Int) : Rat)) .nil))
  | .i64 n => .obj (.cons "t" (.str "i64") (.cons "v" (.num (n : Rat)) .nil))
  | .u64 n => .obj (.cons "t" (.str "u64") (.cons "v" (.num ((n : Int) : Rat)) .nil))
  | .f64 x => .obj (.cons "t" (.str "f64") (.cons "v" (.num x) .nil))
  | .bool b => .obj (.cons "t" (.str "bool") (.cons "v" (.bool b) .nil))
  | .str s => .obj (.cons "t" (.str "str") (.cons "v" (.str s) .nil))
  | .null => .obj (.cons "t" (.str "null") (.cons "v" .null .nil))
  | .arr xs => .obj (.cons "t" (.str "arr") (.cons "v" (.arr (encodeList xs)) .nil))
  | .obj fs => .obj (.cons "t" (.str "obj") (.cons "v" (.obj (encodeFields fs)) .nil))

def encodeList : ValueList → JsonList
  | .nil => .nil
  | .cons v tl => .cons (encode v) (encodeList tl)

def encodeFields : ValueFields → JsonFields
  | .nil => .nil
  | .cons k v tl => .cons k (encode v) (encodeFields tl)

end

/- Modelled from the spec: `decode` of component C1. A JSON object decodes
as a value only when it is the tag wrapper with exactly the keys `t` and `v`,
a recognized tag, a payload of the matching JSON shape, and numeric payloads
inside the range of the tagged machine type; anything else is a parse
failure (`none`). -/
mutual

def decodeValue : Json → Option Value
  | .obj (.cons "t" (.str t) (.cons "v" p .nil)) =>
    match t, p with
    | "i32", .num q =>
      if q.den = 1 ∧ -(2 ^ 31) ≤ q.num ∧ q.num < 2 ^ 31 then some (.i32 q.num) else none
    | "u32", .num q =>
      if q.den = 1 ∧ 0 ≤ q.num ∧ q.num < 2 ^ 32 then some (.u32 q.num.toNat) else none
    | "i64", .num q =>
      if q.den = 1 ∧ -(2 ^ 63) ≤ q.num ∧ q.num < 2 ^ 63 then some (.i64 q.num) else none
    | "u64", .num q =>
      if q.den = 1 ∧ 0 ≤ q.num ∧ q.num < 2 ^ 64 then some (.u64 q.num.toNat) else none
    | "f64", .num q => some (.f64 q)
    | "bool", .bool b => some (.bool b)
    | "str", .str s => some (.str s)
    | "null", .null => some .null
    | "arr", .arr xs =>
      match decodeList xs with
      | some vs => some (.arr vs)
      | none => none
    | "obj", .obj fs =>
      match decodeFields fs with
      | some vs => some (.obj vs)
      | none => none
    | _, _ => none
  | _ => none

def decodeList : JsonList → Option ValueList
  | .nil => some .nil
  | .cons j tl =>
    match decodeValue j, decodeList tl with
    | some v, some vs => some (.cons v vs)
    | _, _ => none

def decodeFields : JsonFields → Option ValueFields
  | .nil => some .nil
  | .cons k j tl =>
    match decodeValue j, decodeFields tl with
    | some v, some vs => some (.cons k v vs)
    | _, _ => none

end

/- Round-trip of the value codec (§8 law 6): decoding the encoding of any
well-formed value succeeds and yields the value back, tag and payload
intact. Proved mutually with its companions for array and object payloads. -/
mutual

theorem decode_encode : ∀ v : Value, v.wf = true → decodeValue (encode v) = some v
  | .i32 n, h => by
      simp [Value.wf] at h
      simp [encode, decodeValue, h]
  | .u32 n, h => by
      simp [Value.wf] at h
      have hlt : (n : Int) < 2 ^ 32 := by exact_mod_cast h
      simp [encode, decodeValue, hlt]
      omega
  | .i64 n, h => by
      simp [Value.wf] at h
      simp [encode, decodeValue, h]
  | .u64 n, h => by
      simp [Value.wf] at h
      have hlt : (n : Int) < 2 ^ 64 := by exact_mod_cast h
      simp [encode, decodeValue, hlt]
      omega
  | .f64 x, _ => by simp [encode, decodeValue]
  | .bool b, _ => by simp [encode, decodeValue]
  | .str s, _ => by simp [encode, decodeValue]
  | .null, _ => by simp [encode, decodeValue]
  | .arr xs, h => by
      simp [Value.wf] at h
      simp [encode, decodeValue, decodeList_encodeList xs h]
  | .obj fs, h => by
      simp [Value.wf] at h
      simp [encode, decodeValue, decodeFields_encodeFields fs h]

theorem decodeList_encodeList :
    ∀ xs : ValueList, xs.wf = true → decodeList (encodeList xs) = some xs
  | .nil, _ => rfl
  | .cons v tl, h => by
      simp [ValueList.wf] at h
      simp [encodeList, decodeList, decode_encode v h.1, decodeList_encodeList tl h.2]

theorem decodeFields_encodeFields :
    ∀ fs : ValueFields, fs.wf = true → decodeFields (encodeFields fs) = some fs
  | .nil, _ => rfl
  | .cons k v tl, h => by
      simp [ValueFields.wf] at h
      simp [encodeFields, decodeFields, decode_encode v h.1,
        decodeFields_encodeFields tl h.2]

end

/-- Every encoding is the tagged wrapper object with exactly the members
`t` (holding the value's tag) and `v` (holding some payload). -/
theorem encode_shape (v : Value) :
    ∃ p : Json, encode v = .obj (.cons "t" (.str (tagOf v)) (.cons "v" p .nil)) := by
  cases v <;> exact ⟨_, rfl⟩

/-- Modelled from the spec: a live or defaults map (§3), a mapping from UTF-8
string keys to tagged values, insertion order irrelevant; modelled as an
association list. -/
abbrev KvsMap := List (String × Value)

/-- Modelled from the spec: map lookup (the `live[k]` / `defaults[k]`
primitive of §3). -/
def kvGet : KvsMap → String → Option Value
  | [], _ => none
  | (k2, v) :: tl, k => if k2 = k then some v else kvGet tl k

/-- Modelled from the spec: insert-or-overwrite, the primitive behind
`set(k, v)` (§4.5). -/
def kvSet : KvsMap → String → Value → KvsMap
  | [], k, v => [(k, v)]
  | (k2, v2) :: tl, k, v =>
    if k2 = k then (k, v) :: tl else (k2, v2) :: kvSet tl k v

/-- Modelled from the spec: deletion of a key, the primitive behind
`remove(k)` and `reset_key(k)` (§4.5). -/
def kvErase : KvsMap → String → KvsMap
  | [], _ => []
  | (k2, v2) :: tl, k =>
    if k2 = k then kvErase tl k else (k2, v2) :: kvErase tl k

theorem kvGet_kvSet_self (m : KvsMap) (k : String) (v : Value) :
    kvGet (kvSet m k v) k = some v := by
  induction m with
  | nil => simp [kvSet, kvGet]
  | cons hd tl ih =>
    obtain ⟨k2, v2⟩ := hd
    by_cases h : k2 = k <;> simp [kvSet, kvGet, h, ih]

theorem kvGet_kvSet_ne (m : KvsMap) (k k' : String) (v : Value) (h : k' ≠ k) :
    kvGet (kvSet m k v) k' = kvGet m k' := by
  induction m with
  | nil => simp [kvSet, kvGet, Ne.symm h]
  | cons hd tl ih =>
    obtain ⟨k2, v2⟩ := hd
    by_cases h2 : k2 = k
    · subst h2
      simp [kvSet, kvGet, Ne.symm h]
    · simp [kvSet, kvGet, h2, ih]

theorem kvGet_kvErase_self (m : KvsMap) (k : String) :
    kvGet (kvErase m k) k = none := by
  induction m with
  | nil => simp [kvErase, kvGet]
  | cons hd tl ih =>
    obtain ⟨k2, v2⟩ := hd
    by_cases h : k2 = k <;> simp [kvErase, kvGet, h, ih]

theorem kvGet_kvErase_ne (m : KvsMap) (k k' : String) (h : k' ≠ k) :
    kvGet (kvErase m k) k' = kvGet m k' := by
  induction m with
  | nil => simp [kvErase]
  | cons hd tl ih =>
    obtain ⟨k2, v2⟩ := hd
    by_cases h2 : k2 = k
    · subst h2
      simp [kvErase, kvGet, Ne.symm h, ih]
    · simp [kvErase, kvGet, h2, ih]

/-- Modelled from the spec: the error taxonomy of §7. -/
inductive KvsError where
  | KeyNotFound
  | InvalidSnapshotId
  | FileNotFound
  | JsonParserError
  | KvsFileReadError
  | IntegrityError
  | IoError
deriving DecidableEq

/-- Modelled from the spec: the rotation depth constant `max_snapshots = 3`
(§3, "rotation depth (excluding current)"). -/
def maxSnapshots : Nat := 3

/-- Modelled from the spec: the state of one KVS instance (component C5) plus
the slice of the filesystem it owns (component C4): `live` and `defaults` are
the two maps of §3; `gens` is the on-disk generation ring, index = generation
number, `some m` meaning payload and hash sidecar for that generation exist
and decode to `m`; `dir`/`instanceId`/`flushOnExit` come from the instance
descriptor. -/
structure Kvs where
  dir : String
  instanceId : Nat
  live : KvsMap
  defaults : KvsMap
  gens : List (Option KvsMap)
  flushOnExit : Bool

/-- Modelled from the spec: `get(k)` (§4.5): `live[k]` if present, else
`defaults[k]`, else `KeyNotFound`. -/
def Kvs.get (s : Kvs) (k : String) : Except KvsError Value :=
  match kvGet s.live k with
  | some v => .ok v
  | none =>
    match kvGet s.defaults k with
    | some v => .ok v
    | none => .error .KeyNotFound

/-- Modelled from the spec: `get_default(k)` (§4.5): bypasses live, reads
only defaults. -/
def Kvs.getDefault (s : Kvs) (k : String) : Except KvsError Value :=
  match kvGet s.defaults k with
  | some v => .ok v
  | none => .error .KeyNotFound

/-- Modelled from the spec: `is_default(k)` (§4.5): `Ok(false)` if `k ∈
live`; `Ok(true)` if `k ∉ live ∧ k ∈ defaults`; `KeyNotFound` otherwise. -/
def Kvs.isDefault (s : Kvs) (k : String) : Except KvsError Bool :=
  match kvGet s.live k with
  | some _ => .ok false
  | none =>
    match kvGet s.defaults k with
    | some _ => .ok true
    | none => .error .KeyNotFound

/-- Modelled from the spec: `set(k, v)` (§4.5): insert or overwrite in live,
keeping the exact tag. -/
def Kvs.set (s : Kvs) (k : String) (v : Value) : Kvs :=
  { s with live := kvSet s.live k v }

/-- Modelled from the spec: `remove(k)` (§4.5): deletes `k` from live only. -/
def Kvs.remove (s : Kvs) (k : String) : Kvs :=
  { s with live := kvErase s.live k }

/-- Modelled from the spec: `reset_key(k)` (§4.5): `remove(k)` if `k ∈ live`;
no-op success if `k ∉ live` but `k ∈ defaults`; `KeyNotFound` otherwise. -/
def Kvs.resetKey (s : Kvs) (k : String) : Except KvsError Kvs :=
  match kvGet s.live k with
  | some _ => .ok (s.remove k)
  | none =>
    match kvGet s.defaults k with
    | some _ => .ok s
    | none => .error .KeyNotFound

/-- Modelled from the spec: `reset_all()` (§4.5): clears the live map
entirely. -/
def Kvs.resetAll (s : Kvs) : Kvs :=
  { s with live := [] }

/-- Modelled from the spec: `flush()` (§4.4 write-current): rotation happens
on entry (generations shift up by one, anything at `max_snapshots` is
deleted by the `take`), then the serialized live map becomes the new
generation 0; payload and hash sidecar are written together. -/
def Kvs.flush (s : Kvs) : Kvs :=
  { s with gens := some s.live :: s.gens.take maxSnapshots }

/-- `n` successive flushes. -/
def Kvs.flushN (s : Kvs) : Nat → Kvs
  | 0 => s
  | n + 1 => (s.flushN n).flush

/-- Modelled from the spec: `snapshot_count()` (§4.4): the number of
generations on disk with `g ≥ 1`, capped at `max_snapshots`. -/
def Kvs.snapshotCount (s : Kvs) : Nat :=
  min ((s.gens.drop 1).countP (fun o => o.isSome)) maxSnapshots

/-- Modelled from the spec: `snapshot_max_count()` (§4.5). -/
def Kvs.snapshotMaxCount (_ : Kvs) : Nat := maxSnapshots

/-- Modelled from the spec: the error of `restore` (§4.5) together with the
CLI-visible message the driver prints for it. -/
inductive RestoreError where
  | invalidSnapshotId (msg : String)
deriving DecidableEq

/-- Modelled from the spec: `restore(snapshot_id)` (§4.5): id 0 is rejected
as "tried to restore current KVS as snapshot"; an id whose generation is not
on disk is rejected as "tried to restore a non-existing snapshot"; otherwise
the live map is replaced by the snapshot's decoded content. -/
def Kvs.restore (s : Kvs) (g : Nat) : Except RestoreError Kvs :=
  if g = 0 then
    .error (.invalidSnapshotId "tried to restore current KVS as snapshot")
  else
    match s.gens.getD g none with
    | none => .error (.invalidSnapshotId "tried to restore a non-existing snapshot")
    | some m => .ok { s with live := m }

/-- Modelled from the spec: process exit codes of the driver CLI (§6):
`0 = SUCCESS`, nonzero `PANIC` on fatal engine errors. -/
inductive ExitCode where
  | SUCCESS
  | PANIC
deriving DecidableEq

/-- Modelled from the spec: the driver running a restore step (§7): a
runtime `InvalidSnapshotId` is a normal value — the state is kept, the exit
code stays SUCCESS, and the message is printed to stderr prefixed with
"error: ". -/
def Kvs.restoreRun (s : Kvs) (g : Nat) : Kvs × ExitCode × Option String :=
  match s.restore g with
  | .ok s2 => (s2, .SUCCESS, none)
  | .error (.invalidSnapshotId m) => (s, .SUCCESS, some ("error: " ++ m))

/-- Modelled from the spec: payload file name `<dir>/kvs_<i>_<g>.json`
(§4.4). -/
def payloadPath (dir : String) (i g : Nat) : String :=
  dir ++ "/kvs_" ++ toString i ++ "_" ++ toString g ++ ".json"

/-- Modelled from the spec: hash sidecar file name `<dir>/kvs_<i>_<g>.hash`
(§4.4). -/
def hashPath (dir : String) (i g : Nat) : String :=
  dir ++ "/kvs_" ++ toString i ++ "_" ++ toString g ++ ".hash"

/-- Modelled from the spec: `snapshot_paths(g)` (§4.4 Paths): `Ok` with both
paths when the generation exists on disk, else `FileNotFound`. -/
def Kvs.snapshotPaths (s : Kvs) (g : Nat) : Except KvsError (String × String) :=
  match s.gens.getD g none with
  | some _ => .ok (payloadPath s.dir s.instanceId g, hashPath s.dir s.instanceId g)
  | none => .error .FileNotFound

/-- Modelled from the spec: `drop()` (§4.5): flush first iff `flush_on_exit`
is set, then release the handle (releasing has no observable effect on the
modelled state). -/
def Kvs.drop (s : Kvs) : Kvs :=
  if s.flushOnExit then s.flush else s

/-- Modelled from the spec: opening a fresh instance (§4.5 `open`) in an
empty directory: defaults as loaded, live map empty, no generation files on
disk yet. -/
def Kvs.openFresh (dir : String) (i : Nat) (defaults : KvsMap) (foe : Bool) : Kvs :=
  { dir := dir, instanceId := i, live := [], defaults := defaults,
    gens := [], flushOnExit := foe }

/-- A sequence of `set` calls, first list element applied first. -/
def Kvs.setList (s : Kvs) : List (String × Value) → Kvs
  | [] => s
  | (k, v) :: tl => (s.set k v).setList tl

/-- Modelled from the spec: the defaults policy of the instance descriptor
(§3). -/
inductive DefaultsPolicy where
  | Optional
  | Required
deriving DecidableEq

/-- Modelled from the spec: the text of a defaults file as the OS hands it
to the engine — it either parses as a JSON document or it does not (§4.2,
§6; the engine source with its JSON text parser is not in the repository,
so parseability is a primitive here). -/
inductive FileText where
  | jsonText (j : Json)
  | badText
deriving Inhabited

/-- Modelled from the spec: schema decoding of a defaults document (§4.2,
§6): a top-level JSON object whose members are tag wrappers; anything else
is schema-invalid. -/
def decodeDefaultsDoc : Json → Option KvsMap
  | .obj fs => decodeDefaultsFields fs
  | _ => none
where
  decodeDefaultsFields : JsonFields → Option KvsMap
    | .nil => some []
    | .cons k j tl =>
      match decodeValue j, decodeDefaultsFields tl with
      | some v, some m => some ((k, v) :: m)
      | _, _ => none

/-- Modelled from the spec: `load(dir, instance_id, policy)` of the defaults
provider (§4.2), with the file already read from disk: `none` models an
absent file. -/
def loadDefaults (file : Option FileText) (p : DefaultsPolicy) :
    Except KvsError KvsMap :=
  match file, p with
  | none, .Required => .error .KvsFileReadError
  | none, .Optional => .ok []
  | some .badText, _ => .error .JsonParserError
  | some (.jsonText j), _ =>
    match decodeDefaultsDoc j with
    | some m => .ok m
    | none => .error .JsonParserError

/-- The canonical name of an error kind as it appears in driver output
(§7). -/
def KvsError.name : KvsError → String
  | .KeyNotFound => "KeyNotFound"
  | .InvalidSnapshotId => "InvalidSnapshotId"
  | .FileNotFound => "FileNotFound"
  | .JsonParserError => "JsonParserError"
  | .KvsFileReadError => "KvsFileReadError"
  | .IntegrityError => "IntegrityError"
  | .IoError => "IoError"

/-- Modelled from the spec: the canonical stderr line for a fatal
defaults-load failure (§6): `error: file "<path>" could not be read: <Kind>`. -/
def fatalLine (path kind : String) : String :=
  "error: file \"" ++ path ++ "\" could not be read: " ++ kind

/-- Modelled from the spec: the driver CLI opening an instance (§6, §7): a
fatal defaults-load error exits PANIC and prints the canonical line
`error: file "<path>" could not be read: <Kind>` to stderr; on success the
process continues with exit SUCCESS. -/
def driverOpen (path : String) (file : Option FileText) (p : DefaultsPolicy) :
    ExitCode × Option String :=
  match loadDefaults file p with
  | .ok _ => (.SUCCESS, none)
  | .error e => (.PANIC, some (fatalLine path e.name))

/-- Modelled from the spec: the process-wide instance registry (§4.6),
holding stores by the lookup key `(dir, instance_id)`; a handle is such a
key, so handles opened with the same `(dir, instance_id)` reach the same
store and handles with different keys reach disjoint stores. -/
abbrev Registry := List ((String × Nat) × Kvs)

/-- Registry lookup by `(dir, instance_id)`. -/
def Registry.find? : Registry → String × Nat → Option Kvs
  | [], _ => none
  | (h2, s) :: tl, h => if h2 = h then some s else Registry.find? tl h

/-- A `set(k, v)` issued through a handle: updates the store registered
under the handle's `(dir, instance_id)`; a registry without that store is
unchanged. -/
def Registry.setThrough : Registry → String × Nat → String → Value → Registry
  | [], _, _, _ => []
  | (h2, s) :: tl, h, k, v =>
    if h2 = h then (h2, s.set k v) :: Registry.setThrough tl h k v
    else (h2, s) :: Registry.setThrough tl h k v

/-- A `get(k)` issued through a handle: reads the store registered under the
handle's `(dir, instance_id)`. -/
def Registry.getThrough (r : Registry) (h : String × Nat) (k : String) :
    Except KvsError Value :=
  match r.find? h with
  | some s => s.get k
  | none => .error .KeyNotFound

theorem Kvs.flushN_live (s : Kvs) (n : Nat) : (s.flushN n).live = s.live := by
  induction n with
  | zero => rfl
  | succ k ih => simp [Kvs.flushN, Kvs.flush, ih]

theorem Kvs.flushN_gens (s : Kvs) (h0 : s.gens = []) (n : Nat) :
    (s.flushN n).gens = List.replicate (min n (maxSnapshots + 1)) (some s.live) := by
  induction n with
  | zero => simp [Kvs.flushN, h0]
  | succ k ih =>
    have hmin : min (k + 1) (maxSnapshots + 1) =
        min maxSnapshots (min k (maxSnapshots + 1)) + 1 := by
      simp [maxSnapshots]
      omega
    simp [Kvs.flushN, Kvs.flush, ih, Kvs.flushN_live, List.take_replicate, hmin,
      List.replicate_succ]

theorem countP_isSome_replicate (m : Nat) (l : KvsMap) :
    (List.replicate m (some l)).countP (fun o => o.isSome) = m := by
  induction m with
  | zero => rfl
  | succ k ih => simp [List.replicate_succ, List.countP_cons, ih]

/-- Claim C1: for a fresh instance with `max_snapshots = 3`, after `N ≥ 1`
successful flushes `snapshot_count()` equals `min(N-1, max_snapshots)`: the
first flush creates only generation 0 and leaves the count at 0 (rotation
happens on entry to flush, not on exit), the second leaves 1, the third 2,
and the fourth and every later flush leave 3. -/
theorem claim_C1 (s : Kvs) (h0 : s.gens = []) (n : Nat) (hn : 1 ≤ n) :
    (s.flushN n).snapshotCount = min (n - 1) maxSnapshots := by
  have hg := Kvs.flushN_gens s h0 n
  simp only [Kvs.snapshotCount, hg, List.drop_replicate, countP_isSome_replicate,
    maxSnapshots]
  omega

theorem claim_C1_witness :
    (Kvs.openFresh "d" 1 [] false).gens = [] ∧ 1 ≤ 5 ∧
      ((Kvs.openFresh "d" 1 [] false).flushN 5).snapshotCount = min (5 - 1) maxSnapshots :=
  ⟨rfl, by omega, claim_C1 (Kvs.openFresh "d" 1 [] false) rfl 5 (by omega)⟩

/-- Claim C2: for every key `k`, `get(k)` returns `Ok(live[k])` when `k` is
in the live map, else `Ok(defaults[k])` when `k` is in the defaults map,
else `Err(KeyNotFound)`; correspondingly `is_default(k)` is `Ok(false)` when
`k` is in live, `Ok(true)` when `k` is only in defaults, and
`Err(KeyNotFound)` when `k` is in neither. -/
theorem claim_C2 (s : Kvs) (k : String) :
    (∀ v, kvGet s.live k = some v →
      s.get k = .ok v ∧ s.isDefault k = .ok false) ∧
    (kvGet s.live k = none → ∀ v, kvGet s.defaults k = some v →
      s.get k = .ok v ∧ s.isDefault k = .ok true) ∧
    (kvGet s.live k = none → kvGet s.defaults k = none →
      s.get k = .error .KeyNotFound ∧ s.isDefault k = .error .KeyNotFound) := by
  refine ⟨fun v hv => ?_, fun hl v hv => ?_, fun hl hd => ?_⟩
  · simp [Kvs.get, Kvs.isDefault, hv]
  · simp [Kvs.get, Kvs.isDefault, hl, hv]
  · simp [Kvs.get, Kvs.isDefault, hl, hd]

theorem claim_C2_witness :
    (kvGet (Kvs.mk "d" 1 [("a", .i32 7)] [("b", .f64 2)] [] false).live "a" =
        some (.i32 7) ∧
      (Kvs.mk "d" 1 [("a", .i32 7)] [("b", .f64 2)] [] false).get "a" = .ok (.i32 7) ∧
      (Kvs.mk "d" 1 [("a", .i32 7)] [("b", .f64 2)] [] false).isDefault "a" = .ok false) ∧
    (kvGet (Kvs.mk "d" 1 [("a", .i32 7)] [("b", .f64 2)] [] false).live "b" = none ∧
      kvGet (Kvs.mk "d" 1 [("a", .i32 7)] [("b", .f64 2)] [] false).defaults "b" =
        some (.f64 2) ∧
      (Kvs.mk "d" 1 [("a", .i32 7)] [("b", .f64 2)] [] false).get "b" = .ok (.f64 2) ∧
      (Kvs.mk "d" 1 [("a", .i32 7)] [("b", .f64 2)] [] false).isDefault "b" = .ok true) ∧
    (kvGet (Kvs.mk "d" 1 [("a", .i32 7)] [("b", .f64 2)] [] false).live "c" = none ∧
      kvGet (Kvs.mk "d" 1 [("a", .i32 7)] [("b", .f64 2)] [] false).defaults "c" = none ∧
      (Kvs.mk "d" 1 [("a", .i32 7)] [("b", .f64 2)] [] false).get "c" =
        .error .KeyNotFound ∧
      (Kvs.mk "d" 1 [("a", .i32 7)] [("b", .f64 2)] [] false).isDefault "c" =
        .error .KeyNotFound) :=
  ⟨⟨rfl, (claim_C2 (Kvs.mk "d" 1 [("a", .i32 7)] [("b", .f64 2)] [] false) "a").1
      (.i32 7) rfl⟩,
   ⟨rfl, rfl, (claim_C2 (Kvs.mk "d" 1 [("a", .i32 7)] [("b", .f64 2)] [] false) "b").2.1
      rfl (.f64 2) rfl⟩,
   ⟨rfl, rfl, (claim_C2 (Kvs.mk "d" 1 [("a", .i32 7)] [("b", .f64 2)] [] false) "c").2.2
      rfl rfl⟩⟩

/-- Claim C3: after `remove(k)`, a subsequent `get(k)` equals
`defaults.get(k)` — `Ok(default)` when `k` is in the defaults map (and
`is_default(k)` is `Ok(true)` again), `Err(KeyNotFound)` when `k` is absent
from defaults; `remove` deletes `k` from the live map only, leaves every
other live key in place, and never erases the default. -/
theorem claim_C3 (s : Kvs) (k : String) :
    (s.remove k).defaults = s.defaults ∧
    kvGet (s.remove k).live k = none ∧
    (∀ k2, k2 ≠ k → kvGet (s.remove k).live k2 = kvGet s.live k2) ∧
    (∀ v, kvGet s.defaults k = some v →
      (s.remove k).get k = .ok v ∧ (s.remove k).isDefault k = .ok true) ∧
    (kvGet s.defaults k = none → (s.remove k).get k = .error .KeyNotFound) := by
  refine ⟨rfl, kvGet_kvErase_self s.live k, fun k2 h2 => kvGet_kvErase_ne s.live k k2 h2,
    fun v hv => ?_, fun hd => ?_⟩
  · simp [Kvs.remove, Kvs.get, Kvs.isDefault, kvGet_kvErase_self, hv]
  · simp [Kvs.remove, Kvs.get, kvGet_kvErase_self, hd]

theorem claim_C3_witness :
    ((Kvs.mk "d" 1 [("a", .i32 7), ("b", .str "x")] [("a", .f64 2)] [] false).remove
        "a").defaults = [("a", .f64 2)] ∧
    kvGet ((Kvs.mk "d" 1 [("a", .i32 7), ("b", .str "x")] [("a", .f64 2)] [] false).remove
        "a").live "a" = none ∧
    kvGet ((Kvs.mk "d" 1 [("a", .i32 7), ("b", .str "x")] [("a", .f64 2)] [] false).remove
        "a").live "b" = some (.str "x") ∧
    kvGet (Kvs.mk "d" 1 [("a", .i32 7), ("b", .str "x")] [("a", .f64 2)] [] false).defaults
        "a" = some (.f64 2) ∧
    ((Kvs.mk "d" 1 [("a", .i32 7), ("b", .str "x")] [("a", .f64 2)] [] false).remove
        "a").get "a" = .ok (.f64 2) ∧
    ((Kvs.mk "d" 1 [("a", .i32 7), ("b", .str "x")] [("a", .f64 2)] [] false).remove
        "a").isDefault "a" = .ok true :=
  ⟨(claim_C3 (Kvs.mk "d" 1 [("a", .i32 7), ("b", .str "x")] [("a", .f64 2)] [] false)
      "a").1,
   (claim_C3 (Kvs.mk "d" 1 [("a", .i32 7), ("b", .str "x")] [("a", .f64 2)] [] false)
      "a").2.1,
   by
     have := (claim_C3 (Kvs.mk "d" 1 [("a", .i32 7), ("b", .str "x")] [("a", .f64 2)]
       [] false) "a").2.2.1 "b" (by decide)
     simpa using this,
   rfl,
   ((claim_C3 (Kvs.mk "d" 1 [("a", .i32 7), ("b", .str "x")] [("a", .f64 2)] [] false)
      "a").2.2.2.1 (.f64 2) rfl).1,
   ((claim_C3 (Kvs.mk "d" 1 [("a", .i32 7), ("b", .str "x")] [("a", .f64 2)] [] false)
      "a").2.2.2.1 (.f64 2) rfl).2⟩

/-- Claim C4: opening an instance whose defaults file is absent under policy
Required fails fatally with KvsFileReadError — the driver exits PANIC with
the stderr line `error: file "<path>" could not be read: KvsFileReadError`;
opening when the defaults file is present but not parseable as JSON fails
fatally with JsonParserError, with the corresponding stderr line, under
either policy. -/
theorem claim_C4 (path : String) (p : DefaultsPolicy) :
    driverOpen path none .Required =
      (.PANIC, some (fatalLine path "KvsFileReadError")) ∧
    driverOpen path (some .badText) p =
      (.PANIC, some (fatalLine path "JsonParserError")) := by
  refine ⟨rfl, ?_⟩
  cases p <;> rfl

/-- Claim C5: the restore contract. `restore(0)` fails with
`InvalidSnapshotId` and the message "tried to restore current KVS as
snapshot"; restoring a generation missing on disk fails with
`InvalidSnapshotId` and "tried to restore a non-existing snapshot"; for an
existing generation `g ∈ [1, max_snapshots]`, `restore(g)` succeeds and
replaces the live map with that snapshot's decoded content, so after three
flushes each writing a distinct value under key `k`, `restore(1)` yields a
store whose `get(k)` returns the value written one flush before the last.
In the error cases the exit code stays SUCCESS and the live map is
unchanged. -/
theorem claim_C5 (s t : Kvs) (g : Nat) (k : String) (v1 v2 v3 : Value) :
    (s.restore 0 =
        .error (.invalidSnapshotId "tried to restore current KVS as snapshot") ∧
      s.restoreRun 0 =
        (s, .SUCCESS, some "error: tried to restore current KVS as snapshot")) ∧
    (g ≠ 0 → s.gens.getD g none = none →
      s.restore g =
        .error (.invalidSnapshotId "tried to restore a non-existing snapshot") ∧
      s.restoreRun g =
        (s, .SUCCESS, some "error: tried to restore a non-existing snapshot")) ∧
    (∀ m, g ≠ 0 → g ≤ maxSnapshots → s.gens.getD g none = some m →
      s.restore g = .ok { s with live := m }) ∧
    (t.gens = [] →
      ∃ r, ((((t.set k v1).flush.set k v2).flush.set k v3).flush.restore 1 = .ok r ∧
        r.get k = .ok v2)) := by
  refine ⟨⟨rfl, rfl⟩, fun hg hnone => ?_, fun m hg _ hsome => ?_, fun ht => ?_⟩
  · have hnone2 : s.gens[g]?.getD none = none := by simpa using hnone
    have h1 : s.restore g =
        .error (.invalidSnapshotId "tried to restore a non-existing snapshot") := by
      simp [Kvs.restore, hg, hnone2]
    exact ⟨h1, by simp [Kvs.restoreRun, h1]⟩
  · have hsome2 : s.gens[g]?.getD none = some m := by simpa using hsome
    simp [Kvs.restore, hg, hsome2]
  · have hgens : ((((t.set k v1).flush.set k v2).flush.set k v3).flush).gens =
        [some (kvSet (kvSet (kvSet t.live k v1) k v2) k v3),
         some (kvSet (kvSet t.live k v1) k v2),
         some (kvSet t.live k v1)] := by
      simp [Kvs.set, Kvs.flush, ht, maxSnapshots]
    refine ⟨{ (((t.set k v1).flush.set k v2).flush.set k v3).flush with
              live := kvSet (kvSet t.live k v1) k v2 }, ?_, ?_⟩
    · simp [Kvs.restore, hgens]
    · simp [Kvs.get, kvGet_kvSet_self]

theorem claim_C5_witness :
    ((Kvs.mk "d" 1 [] [] [] false).restore 0 =
      .error (.invalidSnapshotId "tried to restore current KVS as snapshot")) ∧
    ((2 : Nat) ≠ 0 ∧ (Kvs.mk "d" 1 [] [] [] false).gens.getD 2 none = none ∧
      (Kvs.mk "d" 1 [] [] [] false).restore 2 =
        .error (.invalidSnapshotId "tried to restore a non-existing snapshot")) ∧
    ((1 : Nat) ≠ 0 ∧ 1 ≤ maxSnapshots ∧
      (Kvs.mk "d" 1 [] [] [none, some [("z", .null)]] false).gens.getD 1 none =
        some [("z", .null)] ∧
      (Kvs.mk "d" 1 [] [] [none, some [("z", .null)]] false).restore 1 =
        .ok (Kvs.mk "d" 1 [("z", .null)] [] [none, some [("z", .null)]] false)) ∧
    ((Kvs.mk "d" 1 [] [] [] false).gens = [] ∧
      ∃ r, ((((Kvs.mk "d" 1 [] [] [] false).set "k" (.i32 1)).flush.set "k"
          (.i32 2)).flush.set "k" (.i32 3)).flush.restore 1 = .ok r ∧
        r.get "k" = .ok (.i32 2)) :=
  ⟨(claim_C5 (Kvs.mk "d" 1 [] [] [] false) (Kvs.mk "d" 1 [] [] [] false) 2 "k"
      (.i32 1) (.i32 2) (.i32 3)).1.1,
   ⟨by decide, rfl,
    ((claim_C5 (Kvs.mk "d" 1 [] [] [] false) (Kvs.mk "d" 1 [] [] [] false) 2 "k"
      (.i32 1) (.i32 2) (.i32 3)).2.1 (by decide) rfl).1⟩,
   ⟨by decide, by decide, rfl,
    (claim_C5 (Kvs.mk "d" 1 [] [] [none, some [("z", .null)]] false)
      (Kvs.mk "d" 1 [] [] [] false) 1 "k" (.i32 1) (.i32 2) (.i32 3)).2.2.1
      [("z", .null)] (by decide) (by decide) rfl⟩,
   ⟨rfl,
    (claim_C5 (Kvs.mk "d" 1 [] [] [] false) (Kvs.mk "d" 1 [] [] [] false) 2 "k"
      (.i32 1) (.i32 2) (.i32 3)).2.2.2 rfl⟩⟩

/-- Claim C6: `reset_all()` clears the live map entirely: afterwards, for
every key `k` present in the defaults map, `is_default(k) = Ok(true)` and
`get(k) = get_default(k)`, even for keys that had been overwritten by `set`
before the reset. -/
theorem claim_C6 (s : Kvs) (k : String) (v : Value)
    (h : kvGet s.defaults k = some v) :
    s.resetAll.live = [] ∧
    s.resetAll.isDefault k = .ok true ∧
    s.resetAll.get k = s.resetAll.getDefault k ∧
    s.resetAll.get k = .ok v := by
  refine ⟨rfl, ?_, ?_, ?_⟩ <;>
    simp [Kvs.resetAll, Kvs.isDefault, Kvs.get, Kvs.getDefault, kvGet, h]

theorem claim_C6_witness :
    kvGet (Kvs.mk "d" 1 [("a", .i32 9)] [("a", .f64 2)] [] false).defaults "a" =
      some (.f64 2) ∧
    ((Kvs.mk "d" 1 [("a", .i32 9)] [("a", .f64 2)] [] false).resetAll.live = [] ∧
     (Kvs.mk "d" 1 [("a", .i32 9)] [("a", .f64 2)] [] false).resetAll.isDefault "a" =
       .ok true ∧
     (Kvs.mk "d" 1 [("a", .i32 9)] [("a", .f64 2)] [] false).resetAll.get "a" =
       (Kvs.mk "d" 1 [("a", .i32 9)] [("a", .f64 2)] [] false).resetAll.getDefault "a" ∧
     (Kvs.mk "d" 1 [("a", .i32 9)] [("a", .f64 2)] [] false).resetAll.get "a" =
       .ok (.f64 2)) :=
  ⟨rfl, claim_C6 (Kvs.mk "d" 1 [("a", .i32 9)] [("a", .f64 2)] [] false) "a"
    (.f64 2) rfl⟩

/-- Claim C7: for every key `k` and every well-formed value `V` of any of
the ten tags (arrays and objects possibly nested), `set(k, V)` followed by
`get(k)` returns a value with exactly the same tag and payload as `V`, and
`V` serializes as the tagged wrapper (a JSON object with exactly the members
`t` = the tag and `v` = the payload) whose arr/obj payloads contain nested
tagged wrappers — witnessed by the serialization decoding back to exactly
`V`. -/
theorem claim_C7 (s : Kvs) (k : String) (v : Value) (hwf : v.wf = true) :
    ((s.set k v).get k = .ok v ∧ tagOf v = tagOf v) ∧
    (∃ p, encode v = .obj (.cons "t" (.str (tagOf v)) (.cons "v" p .nil))) ∧
    decodeValue (encode v) = some v :=
  ⟨⟨by simp [Kvs.set, Kvs.get, kvGet_kvSet_self], rfl⟩, encode_shape v,
   decode_encode v hwf⟩

theorem claim_C7_witness :
    (Value.arr (.cons (.i32 5) (.cons (.u64 3)
      (.cons (.obj (.cons "sub" (.f64 7) .nil)) .nil)))).wf = true ∧
    (((Kvs.mk "d" 1 [] [] [] false).set "k"
        (Value.arr (.cons (.i32 5) (.cons (.u64 3)
          (.cons (.obj (.cons "sub" (.f64 7) .nil)) .nil))))).get "k" =
      .ok (Value.arr (.cons (.i32 5) (.cons (.u64 3)
        (.cons (.obj (.cons "sub" (.f64 7) .nil)) .nil)))) ∧
     tagOf (Value.arr (.cons (.i32 5) (.cons (.u64 3)
       (.cons (.obj (.cons "sub" (.f64 7) .nil)) .nil)))) =
       tagOf (Value.arr (.cons (.i32 5) (.cons (.u64 3)
         (.cons (.obj (.cons "sub" (.f64 7) .nil)) .nil))))) ∧
    (∃ p, encode (Value.arr (.cons (.i32 5) (.cons (.u64 3)
        (.cons (.obj (.cons "sub" (.f64 7) .nil)) .nil)))) =
      .obj (.cons "t" (.str (tagOf (Value.arr (.cons (.i32 5) (.cons (.u64 3)
        (.cons (.obj (.cons "sub" (.f64 7) .nil)) .nil))))))
        (.cons "v" p .nil))) ∧
    decodeValue (encode (Value.arr (.cons (.i32 5) (.cons (.u64 3)
        (.cons (.obj (.cons "sub" (.f64 7) .nil)) .nil))))) =
      some (Value.arr (.cons (.i32 5) (.cons (.u64 3)
        (.cons (.obj (.cons "sub" (.f64 7) .nil)) .nil)))) :=
  ⟨rfl, claim_C7 (Kvs.mk "d" 1 [] [] [] false) "k"
    (Value.arr (.cons (.i32 5) (.cons (.u64 3)
      (.cons (.obj (.cons "sub" (.f64 7) .nil)) .nil)))) rfl⟩

theorem Registry.find?_setThrough_self (r : Registry) (h : String × Nat)
    (k : String) (v : Value) :
    ∀ s : Kvs, r.find? h = some s →
      (r.setThrough h k v).find? h = some (s.set k v) := by
  induction r with
  | nil => intro s hf; simp [Registry.find?] at hf
  | cons e tl ih =>
    intro s hf
    obtain ⟨h2, s2⟩ := e
    by_cases he : h2 = h
    · subst he
      simp [Registry.find?] at hf
      simp [Registry.setThrough, Registry.find?, hf]
    · simp [Registry.find?, he] at hf
      simp [Registry.setThrough, Registry.find?, he, ih s hf]

theorem Registry.find?_setThrough_ne (r : Registry) (h h2 : String × Nat)
    (k : String) (v : Value) (hne : h ≠ h2) :
    (r.setThrough h k v).find? h2 = r.find? h2 := by
  induction r with
  | nil => rfl
  | cons e tl ih =>
    obtain ⟨h3, s3⟩ := e
    by_cases he : h3 = h
    · subst he
      have hne2 : h3 ≠ h2 := hne
      simp [Registry.setThrough, Registry.find?, hne2, ih]
    · by_cases he2 : h3 = h2
      · subst he2
        simp [Registry.setThrough, Registry.find?, he]
      · simp [Registry.setThrough, Registry.find?, he, he2, ih]

/-- Claim C8: two handles share observable state exactly when they are
opened with the same `(dir, instance_id)`: a `set` of a key through a handle
with that lookup key is visible to a subsequent `get` of the key through any
handle with the same lookup key, while a handle with a different
`instance_id` in the same `dir` is fully independent — a write through one
is never visible through the other. -/
theorem claim_C8 (r : Registry) (d : String) (i j : Nat) (k k2 : String)
    (v : Value) :
    ((r.find? (d, i)).isSome →
      (r.setThrough (d, i) k v).getThrough (d, i) k = .ok v) ∧
    (i ≠ j →
      (r.setThrough (d, i) k v).getThrough (d, j) k2 = r.getThrough (d, j) k2) := by
  constructor
  · intro hs
    obtain ⟨s0, hf⟩ := Option.isSome_iff_exists.mp hs
    have hfind := Registry.find?_setThrough_self r (d, i) k v s0 hf
    simp [Registry.getThrough, hfind, Kvs.set, Kvs.get, kvGet_kvSet_self]
  · intro hij
    have hne : (d, i) ≠ (d, j) := by simp [hij]
    simp [Registry.getThrough, Registry.find?_setThrough_ne r (d, i) (d, j) k v hne]

theorem claim_C8_witness :
    ((Registry.find? [(("d", 1), Kvs.mk "d" 1 [] [] [] false),
        (("d", 2), Kvs.mk "d" 2 [] [] [] false)] ("d", 1)).isSome ∧
      (Registry.setThrough [(("d", 1), Kvs.mk "d" 1 [] [] [] false),
          (("d", 2), Kvs.mk "d" 2 [] [] [] false)] ("d", 1) "n" (.f64 3)).getThrough
        ("d", 1) "n" = .ok (.f64 3)) ∧
    ((1 : Nat) ≠ 2 ∧
      (Registry.setThrough [(("d", 1), Kvs.mk "d" 1 [] [] [] false),
          (("d", 2), Kvs.mk "d" 2 [] [] [] false)] ("d", 1) "n" (.f64 3)).getThrough
        ("d", 2) "n" =
      (Registry.getThrough [(("d", 1), Kvs.mk "d" 1 [] [] [] false),
          (("d", 2), Kvs.mk "d" 2 [] [] [] false)] ("d", 2) "n")) :=
  ⟨⟨rfl, (claim_C8 [(("d", 1), Kvs.mk "d" 1 [] [] [] false),
      (("d", 2), Kvs.mk "d" 2 [] [] [] false)] "d" 1 2 "n" "n" (.f64 3)).1 rfl⟩,
   ⟨by decide, (claim_C8 [(("d", 1), Kvs.mk "d" 1 [] [] [] false),
      (("d", 2), Kvs.mk "d" 2 [] [] [] false)] "d" 1 2 "n" "n" (.f64 3)).2
      (by decide)⟩⟩

theorem Kvs.setList_gens (s : Kvs) (l : List (String × Value)) :
    (s.setList l).gens = s.gens := by
  induction l generalizing s with
  | nil => rfl
  | cons hd tl ih =>
    obtain ⟨k, v⟩ := hd
    simp [Kvs.setList, ih, Kvs.set]

theorem Kvs.setList_flushOnExit (s : Kvs) (l : List (String × Value)) :
    (s.setList l).flushOnExit = s.flushOnExit := by
  induction l generalizing s with
  | nil => rfl
  | cons hd tl ih =>
    obtain ⟨k, v⟩ := hd
    simp [Kvs.setList, ih, Kvs.set]

theorem Kvs.setList_dir (s : Kvs) (l : List (String × Value)) :
    (s.setList l).dir = s.dir := by
  induction l generalizing s with
  | nil => rfl
  | cons hd tl ih =>
    obtain ⟨k, v⟩ := hd
    simp [Kvs.setList, ih, Kvs.set]

theorem Kvs.setList_instanceId (s : Kvs) (l : List (String × Value)) :
    (s.setList l).instanceId = s.instanceId := by
  induction l generalizing s with
  | nil => rfl
  | cons hd tl ih =>
    obtain ⟨k, v⟩ := hd
    simp [Kvs.setList, ih, Kvs.set]

theorem Kvs.setList_kvGet_not_mem (l : List (String × Value)) (k : String) :
    k ∉ l.map Prod.fst → ∀ s : Kvs, kvGet (s.setList l).live k = kvGet s.live k := by
  induction l with
  | nil => intro _ s; rfl
  | cons hd tl ih =>
    intro hk s
    obtain ⟨k0, v0⟩ := hd
    simp only [List.map_cons, List.mem_cons, not_or] at hk
    simp only [Kvs.setList]
    rw [ih hk.2 (s.set k0 v0)]
    simp [Kvs.set, kvGet_kvSet_ne s.live k0 k v0 hk.1]

theorem Kvs.setList_kvGet_of_nodup (l : List (String × Value)) :
    (l.map Prod.fst).Nodup → ∀ (k : String) (v : Value), (k, v) ∈ l →
      ∀ s : Kvs, kvGet (s.setList l).live k = some v := by
  induction l with
  | nil => intro _ k v hmem; cases hmem
  | cons hd tl ih =>
    intro hnd k v hmem s
    obtain ⟨k0, v0⟩ := hd
    simp only [List.map_cons, List.nodup_cons] at hnd
    rcases List.mem_cons.mp hmem with heq | hmem2
    · injection heq with hk hv
      subst hk
      subst hv
      simp only [Kvs.setList]
      rw [Kvs.setList_kvGet_not_mem tl k hnd.1 (s.set k v)]
      simp [Kvs.set, kvGet_kvSet_self]
    · simp only [Kvs.setList]
      exact ih hnd.2 k v hmem2 (s.set k0 v0)

/-- Claim C9: `drop()` persists exactly when configured. With
`flush_on_exit = true`, dropping the handle flushes: afterwards the
generation-0 payload `<dir>/kvs_<i>_0.json` and sidecar
`<dir>/kvs_<i>_0.hash` both exist and the stored map holds every value set
before the drop. With `flush_on_exit = false` and no flush ever called,
dropping writes nothing: no generation-0 payload or sidecar exists
afterwards and the set data is not persisted. -/
theorem claim_C9 (dir : String) (i : Nat) (defs : KvsMap)
    (l : List (String × Value)) :
    (((Kvs.openFresh dir i defs true).setList l).drop).gens.getD 0 none =
        some ((Kvs.openFresh dir i defs true).setList l).live ∧
    (((Kvs.openFresh dir i defs true).setList l).drop).snapshotPaths 0 =
        .ok (payloadPath dir i 0, hashPath dir i 0) ∧
    ((l.map Prod.fst).Nodup → ∀ k v, (k, v) ∈ l →
      kvGet ((Kvs.openFresh dir i defs true).setList l).live k = some v) ∧
    (((Kvs.openFresh dir i defs false).setList l).drop).gens = [] ∧
    (((Kvs.openFresh dir i defs false).setList l).drop).snapshotPaths 0 =
        .error .FileNotFound := by
  have hfoeT : ((Kvs.openFresh dir i defs true).setList l).flushOnExit = true := by
    simp [Kvs.setList_flushOnExit, Kvs.openFresh]
  have hfoeF : ((Kvs.openFresh dir i defs false).setList l).flushOnExit = false := by
    simp [Kvs.setList_flushOnExit, Kvs.openFresh]
  have hgT : ((Kvs.openFresh dir i defs true).setList l).gens = [] := by
    simp [Kvs.setList_gens, Kvs.openFresh]
  have hgF : ((Kvs.openFresh dir i defs false).setList l).gens = [] := by
    simp [Kvs.setList_gens, Kvs.openFresh]
  have hdT : ((Kvs.openFresh dir i defs true).setList l).dir = dir := by
    simp [Kvs.setList_dir, Kvs.openFresh]
  have hiT : ((Kvs.openFresh dir i defs true).setList l).instanceId = i := by
    simp [Kvs.setList_instanceId, Kvs.openFresh]
  refine ⟨?_, ?_, ?_, ?_, ?_⟩
  · simp [Kvs.drop, hfoeT, Kvs.flush, hgT]
  · simp [Kvs.drop, hfoeT, Kvs.flush, Kvs.snapshotPaths, hgT, hdT, hiT]
  · intro hnd k v hmem
    exact Kvs.setList_kvGet_of_nodup l hnd k v hmem (Kvs.openFresh dir i defs true)
  · simp [Kvs.drop, hfoeF, hgF]
  · simp [Kvs.drop, hfoeF, Kvs.snapshotPaths, hgF]

theorem claim_C9_witness :
    ((["a", "b"] : List String).Nodup ∧
      ("a", Value.i32 1) ∈ [("a", Value.i32 1), ("b", Value.i32 2)]) ∧
    (((Kvs.openFresh "d" 2 [] true).setList
        [("a", Value.i32 1), ("b", Value.i32 2)]).drop).gens.getD 0 none =
      some ((Kvs.openFresh "d" 2 [] true).setList
        [("a", Value.i32 1), ("b", Value.i32 2)]).live ∧
    (((Kvs.openFresh "d" 2 [] true).setList
        [("a", Value.i32 1), ("b", Value.i32 2)]).drop).snapshotPaths 0 =
      .ok ("d/kvs_2_0.json", "d/kvs_2_0.hash") ∧
    kvGet ((Kvs.openFresh "d" 2 [] true).setList
        [("a", Value.i32 1), ("b", Value.i32 2)]).live "a" = some (Value.i32 1) ∧
    (((Kvs.openFresh "d" 2 [] false).setList
        [("a", Value.i32 1), ("b", Value.i32 2)]).drop).gens = [] ∧
    (((Kvs.openFresh "d" 2 [] false).setList
        [("a", Value.i32 1), ("b", Value.i32 2)]).drop).snapshotPaths 0 =
      .error .FileNotFound :=
  ⟨⟨by decide, by simp⟩,
   (claim_C9 "d" 2 [] [("a", Value.i32 1), ("b", Value.i32 2)]).1,
   (claim_C9 "d" 2 [] [("a", Value.i32 1), ("b", Value.i32 2)]).2.1,
   (claim_C9 "d" 2 [] [("a", Value.i32 1), ("b", Value.i32 2)]).2.2.1
     (by decide) "a" (Value.i32 1) (by simp),
   (claim_C9 "d" 2 [] [("a", Value.i32 1), ("b", Value.i32 2)]).2.2.2.1,
   (claim_C9 "d" 2 [] [("a", Value.i32 1), ("b", Value.i32 2)]).2.2.2.2⟩

/-- Claim C10: `reset_key(k)` is frame-preserving over all other keys: when
it succeeds, every key `k2 ≠ k` that is present in the live map keeps its
`get(k2)` value and its `is_default(k2) = Ok(false)` status; only `k` itself
reverts to reporting its default value with `is_default = Ok(true)`. -/
theorem claim_C10 (s : Kvs) (k : String) (s2 : Kvs)
    (hres : s.resetKey k = .ok s2) :
    (∀ k2, k2 ≠ k → ∀ v2, kvGet s.live k2 = some v2 →
      s2.get k2 = s.get k2 ∧ s2.get k2 = .ok v2 ∧ s2.isDefault k2 = .ok false) ∧
    (∀ vd, kvGet s.defaults k = some vd →
      s2.get k = .ok vd ∧ s2.isDefault k = .ok true) := by
  rcases hl : kvGet s.live k with _ | v0
  · rcases hd : kvGet s.defaults k with _ | vd0
    · simp [Kvs.resetKey, hl, hd] at hres
    · simp [Kvs.resetKey, hl, hd] at hres
      subst hres
      refine ⟨fun k2 hk2 v2 hv2 => ?_, fun vd hvd => ?_⟩
      · simp [Kvs.get, Kvs.isDefault, hv2]
      · obtain rfl : vd0 = vd := Option.some.inj hvd
        simp [Kvs.get, Kvs.isDefault, hl, hd]
  · simp [Kvs.resetKey, hl] at hres
    subst hres
    refine ⟨fun k2 hk2 v2 hv2 => ?_, fun vd hvd => ?_⟩
    · have hne := kvGet_kvErase_ne s.live k k2 hk2
      simp [Kvs.remove, Kvs.get, Kvs.isDefault, hne, hv2]
    · simp [Kvs.remove, Kvs.get, Kvs.isDefault, kvGet_kvErase_self, hvd]

theorem claim_C10_witness :
    (Kvs.mk "d" 1 [("a", .i32 1), ("b", .i32 2)] [("b", .f64 9)] [] false).resetKey
        "b" =
      .ok (Kvs.mk "d" 1 [("a", .i32 1)] [("b", .f64 9)] [] false) ∧
    ("a" ≠ "b" ∧
      kvGet (Kvs.mk "d" 1 [("a", .i32 1), ("b", .i32 2)] [("b", .f64 9)] []
        false).live "a" = some (.i32 1) ∧
      (Kvs.mk "d" 1 [("a", .i32 1)] [("b", .f64 9)] [] false).get "a" =
        (Kvs.mk "d" 1 [("a", .i32 1), ("b", .i32 2)] [("b", .f64 9)] [] false).get
          "a" ∧
      (Kvs.mk "d" 1 [("a", .i32 1)] [("b", .f64 9)] [] false).get "a" =
        .ok (.i32 1) ∧
      (Kvs.mk "d" 1 [("a", .i32 1)] [("b", .f64 9)] [] false).isDefault "a" =
        .ok false) ∧
    (kvGet (Kvs.mk "d" 1 [("a", .i32 1), ("b", .i32 2)] [("b", .f64 9)] []
        false).defaults "b" = some (.f64 9) ∧
      (Kvs.mk "d" 1 [("a", .i32 1)] [("b", .f64 9)] [] false).get "b" =
        .ok (.f64 9) ∧
      (Kvs.mk "d" 1 [("a", .i32 1)] [("b", .f64 9)] [] false).isDefault "b" =
        .ok true) :=
  ⟨rfl,
   ⟨by decide, rfl,
    (claim_C10 (Kvs.mk "d" 1 [("a", .i32 1), ("b", .i32 2)] [("b", .f64 9)] [] false)
      "b" (Kvs.mk "d" 1 [("a", .i32 1)] [("b", .f64 9)] [] false) rfl).1 "a"
      (by decide) (.i32 1) rfl⟩,
   ⟨rfl,
    (claim_C10 (Kvs.mk "d" 1 [("a", .i32 1), ("b", .i32 2)] [("b", .f64 9)] [] false)
      "b" (Kvs.mk "d" 1 [("a", .i32 1)] [("b", .f64 9)] [] false) rfl).2 (.f64 9)
      rfl⟩⟩
